import Mathlib

/-!
Shallow embedding of the data-access layer in `database_fixed.py`
(class `DatabaseManager`): the two-engine initialization with retry and
fallback, the three write operations with retry, and the five read
operations with swallow-on-error semantics.

Engine interactions that can fail (connections, statement execution) are
modelled by boolean fault oracles: `connOk k` tells whether the engine
interaction of retry attempt `k` succeeds.  A failed attempt leaves the
database content unchanged (the source rolls back on error).  Timestamps
are seconds since an epoch (`Nat`); SQL `REAL` percentages are `ℚ`.
-/

/-- The active engine tag, `self.db_type` in the source
(`"postgresql"` or `"sqlite"`). -/
inductive DbType where
  | postgresql
  | sqlite
deriving DecidableEq, Repr

/-- A row of the `stores` table (both dialects): surrogate id, name,
unique url, derived platform, engine-assigned creation timestamp. -/
structure Store where
  id : Nat
  name : String
  url : String
  platform : String
  created_at : Nat
deriving DecidableEq, Repr

/-- A row of the `status_checks` table. -/
structure StatusCheck where
  store_id : Int
  is_online : Bool
  response_time_ms : Option Int
  error_message : Option String
  checked_at : Nat
deriving DecidableEq, Repr

/-- A row of the `summary_reports` table. -/
structure SummaryReport where
  total_stores : Int
  online_stores : Int
  offline_stores : Int
  online_percentage : ℚ
  report_time : Nat
deriving DecidableEq, Repr

/-- The persistent content of the active engine: the three tables plus
the engine's surrogate-key counter for `stores` (SERIAL / AUTOINCREMENT,
also the value reported by `RETURNING id` / `cursor.lastrowid`). -/
structure DbState where
  stores : List Store
  status_checks : List StatusCheck
  summary_reports : List SummaryReport
  nextStoreId : Nat
deriving DecidableEq, Repr

/-- The mutable attributes of a `DatabaseManager` instance
(`self.db_type`, `self.max_retries`, `self.retry_delay`,
`self.connection_pool` reduced to whether a pool was created). -/
structure Manager where
  db_type : DbType
  max_retries : Nat
  retry_delay : Nat
  connection_pool : Bool
deriving DecidableEq, Repr

/-- Python's `needle in haystack` on strings, over the character lists:
`true` iff `needle` occurs contiguously inside `haystack`. -/
def occursIn (needle : List Char) : List Char → Bool
  | [] => needle.isEmpty
  | c :: rest => needle.isPrefixOf (c :: rest) || occursIn needle rest

/-- `platform = "foodpanda" if "foodpanda.ph" in url else "grabfood"`
(line 251 of the source). -/
def platformOf (url : String) : String :=
  if occursIn "foodpanda.ph".data url.data then "foodpanda" else "grabfood"

/-- Python slicing `s[:n]`: the first `n` characters. -/
def pySlice (s : String) (n : Nat) : String :=
  String.mk (s.data.take n)

/-- Python `s.startswith(pre)`, over the character lists. -/
def pyStartsWith (s pre : String) : Bool :=
  pre.data.isPrefixOf s.data

/-- Lines 311–312 of the source:
`if error_message and len(error_message) > 500:
   error_message = error_message[:500] + "..."`. -/
def truncateErrorMessage : Option String → Option String
  | none => none
  | some s =>
      if s.length ≠ 0 ∧ 500 < s.length then some (pySlice s 500 ++ "...")
      else some s

/-! ## Initialization (`__init__`, `_initialize_database`, `_init_postgresql`,
`_init_sqlite`, `_create_tables`) -/

/-- Failure categories of `_init_postgresql`: the `ValueError` raised for a
connection string missing the `postgresql://` scheme, a
`psycopg2.OperationalError` from the throwaway test connection, and any
other exception (e.g. from pool creation). -/
inductive PgInitError where
  | invalidUrl
  | operational
  | other
deriving DecidableEq, Repr

/-- The process configuration plus the fault oracles for initialization:
whether the primary engine's test connection / pool creation / table
creation succeed on attempt `k`, and whether the embedded engine's
storage path is writable (`sqliteOk` gates `_init_sqlite` and the SQLite
`_create_tables`). -/
structure InitEnv where
  database_url : String
  use_sqlite : Bool
  pgConnectOk : Nat → Bool
  pgPoolOk : Nat → Bool
  pgCreateOk : Nat → Bool
  sqliteOk : Bool

/-- One run of `_init_postgresql` on attempt `k`, in source order: scheme
check (raises `ValueError` before any connection is attempted), throwaway
test connection, pool creation. -/
def init_postgresql (env : InitEnv) (k : Nat) : Except PgInitError Unit :=
  if ¬ pyStartsWith env.database_url "postgresql://" then .error .invalidUrl
  else if ¬ env.pgConnectOk k then .error .operational
  else if ¬ env.pgPoolOk k then .error .other
  else .ok ()

/-- What `_initialize_database` leaves behind when it returns normally:
the final `self.db_type`, whether `self.connection_pool` was created,
whether `_create_tables` ran to completion, and how many loop iterations
(attempts) were executed. -/
structure InitResult where
  db_type : DbType
  pool_initialized : Bool
  schema_created : Bool
  attempts : Nat
deriving DecidableEq, Repr

/-- The retry loop of `_initialize_database`, lines 31–50.  `fuel` is the
number of loop iterations left (`max_retries - attempt`).  An attempt
succeeds when the engine initializer and `_create_tables` both succeed;
on the last attempt's failure the handler reassigns `self.db_type` to
`"sqlite"` and runs `_init_sqlite(); _create_tables()` outside any
`try`, so a failure there propagates. -/
def initLoop (env : InitEnv) : DbType → Bool → Nat → Nat → Except String InitResult
  | _, _, _, 0 => .error "retry loop exhausted"
  | dbt, pool, attempt, fuel + 1 =>
    let step : Bool × Bool :=
      match dbt with
      | .postgresql =>
        match init_postgresql env attempt with
        | .ok _ => (env.pgCreateOk attempt, true)
        | .error _ => (false, pool)
      | .sqlite => (env.sqliteOk, pool)
    if step.1 then
      .ok ⟨dbt, step.2, true, attempt + 1⟩
    else if 0 < fuel then
      initLoop env dbt step.2 (attempt + 1) fuel
    else
      if env.sqliteOk then .ok ⟨.sqlite, step.2, true, attempt + 1⟩
      else .error "sqlite fallback failed"

/-- `_initialize_database` with the source's `max_retries = 3`. -/
def initialize_database (env : InitEnv) (dbt : DbType) : Except String InitResult :=
  initLoop env dbt false 0 3

/-- `DatabaseManager.__init__`: picks the initial engine from
configuration (`USE_SQLITE`), then runs `_initialize_database`; the
resulting instance carries the final engine tag and pool. -/
def mkManager (env : InitEnv) : Except String Manager :=
  let dbt := if env.use_sqlite then DbType.sqlite else DbType.postgresql
  match initialize_database env dbt with
  | .ok r => .ok ⟨r.db_type, 3, 5, r.pool_initialized⟩
  | .error e => .error e

/-! ## Write operations (`get_or_create_store`, `save_status_check`,
`save_summary_report`)

Each is a retry loop over an attempt oracle `connOk : Nat → Bool`
covering the attempt's whole engine interaction (`get_connection`,
statement execution, commit); a failed attempt rolls back, leaving the
database content unchanged.  `now` is the engine clock supplying
`CURRENT_TIMESTAMP` defaults.  Both dialect branches of each operation
run the same lookup/insert (they differ only in placeholder syntax and
cursor row access), so one body models both. -/

/-- Retry loop of `get_or_create_store` (lines 253–297): look up the
store by exact url; return its id if found, otherwise insert a new row
(platform derived from the url) and return the engine-assigned id.  On
exhaustion the handler re-raises (`raise Exception(...)`, line 297),
modelled as `Except.error`. -/
def gocLoop (connOk : Nat → Bool) (db : DbState) (now : Nat) (name url : String) :
    Nat → Nat → Except String (Nat × DbState)
  | _, 0 => .error "retry loop exhausted"
  | attempt, fuel + 1 =>
    if connOk attempt then
      match db.stores.find? (fun s => s.url == url) with
      | some s => .ok (s.id, db)
      | none =>
        let newStore : Store := ⟨db.nextStoreId, name, url, platformOf url, now⟩
        .ok (db.nextStoreId,
             { db with stores := db.stores ++ [newStore],
                       nextStoreId := db.nextStoreId + 1 })
    else if 0 < fuel then
      gocLoop connOk db now name url (attempt + 1) fuel
    else
      .error "Failed to create store after max_retries attempts"

/-- `get_or_create_store(name, url) -> int`. -/
def get_or_create_store (m : Manager) (connOk : Nat → Bool) (db : DbState)
    (now : Nat) (name url : String) : Except String (Nat × DbState) :=
  gocLoop connOk db now name url 0 m.max_retries

/-- Retry loop of `save_status_check` (lines 303–338): normalize the
inputs (strict boolean, integer milliseconds, truncated error message)
and insert one `status_checks` row; returns `True` on success and
`False` on exhaustion (lines 329, 338) — it never raises. -/
def sscLoop (connOk : Nat → Bool) (db : DbState) (now : Nat) (store_id : Int)
    (is_online : Bool) (response_time_ms : Option Int)
    (error_message : Option String) : Nat → Nat → Bool × DbState
  | _, 0 => (false, db)
  | attempt, fuel + 1 =>
    if connOk attempt then
      (true,
       { db with status_checks := db.status_checks ++
           [⟨store_id, is_online, response_time_ms,
             truncateErrorMessage error_message, now⟩] })
    else if 0 < fuel then
      sscLoop connOk db now store_id is_online response_time_ms error_message
        (attempt + 1) fuel
    else
      (false, db)

/-- `save_status_check(store_id, is_online, response_time_ms, error_message) -> bool`. -/
def save_status_check (m : Manager) (connOk : Nat → Bool) (db : DbState)
    (now : Nat) (store_id : Int) (is_online : Bool)
    (response_time_ms : Option Int) (error_message : Option String) :
    Bool × DbState :=
  sscLoop connOk db now store_id is_online response_time_ms error_message 0
    m.max_retries

/-- Line 344 of the source:
`online_percentage = (online_stores / total_stores * 100) if total_stores > 0 else 0`
(Python true division, exact over `ℚ`). -/
def onlinePercentage (total_stores online_stores : Int) : ℚ :=
  if 0 < total_stores then (online_stores : ℚ) / (total_stores : ℚ) * 100 else 0

/-- Retry loop of `save_summary_report` (lines 342–376): computes the
online percentage (guarding the zero divisor), inserts one
`summary_reports` row; returns `True` on success and `False` on
exhaustion — it never raises. -/
def ssrLoop (connOk : Nat → Bool) (db : DbState) (now : Nat)
    (total_stores online_stores offline_stores : Int) :
    Nat → Nat → Bool × DbState
  | _, 0 => (false, db)
  | attempt, fuel + 1 =>
    if connOk attempt then
      (true,
       { db with summary_reports := db.summary_reports ++
           [⟨total_stores, online_stores, offline_stores,
             onlinePercentage total_stores online_stores, now⟩] })
    else if 0 < fuel then
      ssrLoop connOk db now total_stores online_stores offline_stores
        (attempt + 1) fuel
    else
      (false, db)

/-- `save_summary_report(total_stores, online_stores, offline_stores) -> bool`. -/
def save_summary_report (m : Manager) (connOk : Nat → Bool) (db : DbState)
    (now : Nat) (total_stores online_stores offline_stores : Int) :
    Bool × DbState :=
  ssrLoop connOk db now total_stores online_stores offline_stores 0
    m.max_retries

/-! ## Time and SQL helpers for the read queries

Timestamps are seconds.  The Manila offset is the fixed `+8 hours` the
queries apply (`DATE(ts, '+8 hours')` on SQLite, `AT TIME ZONE
'Asia/Manila'` on PostgreSQL — Asia/Manila is UTC+8 with no daylight
saving). -/

/-- Seconds in the Manila offset, `8 * 3600`. -/
def manilaOffset : Nat := 28800

/-- The stored (UTC) hour-of-day of a timestamp: SQLite
`strftime('%H', ts)` read as a number. -/
def utcHour (t : Nat) : Nat := t / 3600 % 24

/-- The Manila-local hour-of-day of a timestamp: PostgreSQL
`EXTRACT(HOUR FROM ts AT TIME ZONE 'Asia/Manila')`. -/
def localHour (t : Nat) : Nat := (t + manilaOffset) / 3600 % 24

/-- The Manila-local calendar day of a timestamp: `DATE(ts, '+8 hours')`
on SQLite, `DATE(ts AT TIME ZONE 'Asia/Manila')` on PostgreSQL, as a day
index. -/
def localDay (t : Nat) : Nat := (t + manilaOffset) / 86400

/-- `ROUND(x, 0)` of both engines: round half away from zero, to an
integer. -/
def roundSql (q : ℚ) : Int :=
  if 0 ≤ q then ⌊q + 1 / 2⌋ else -⌊-q + 1 / 2⌋

/-- Sum of a list of rationals (SQL `SUM`/`AVG` numerator). -/
def qsum (l : List ℚ) : ℚ := l.foldr (· + ·) 0

/-- SQL `AVG` over a rational column. -/
def qavg (l : List ℚ) : ℚ := qsum l / l.length

/-- Insert into an ascending `Nat` list (for `ORDER BY hour`). -/
def insertAsc (x : Nat) : List Nat → List Nat
  | [] => [x]
  | y :: ys => if x ≤ y then x :: y :: ys else y :: insertAsc x ys

/-- Insertion sort, ascending (for `ORDER BY hour`; the SQLite `'%H'`
strings are fixed-width, so their lexicographic order is this numeric
order). -/
def sortAsc : List Nat → List Nat
  | [] => []
  | x :: xs => insertAsc x (sortAsc xs)

/-- Insert into a list descending by key (stable, for `ORDER BY ... DESC`). -/
def insertDescBy {α : Type} (key : α → Int) (x : α) : List α → List α
  | [] => [x]
  | y :: ys => if key y < key x then x :: y :: ys else y :: insertDescBy key x ys

/-- Insertion sort, descending by key (for `ORDER BY checked_at DESC`,
`ORDER BY uptime_percentage DESC`). -/
def sortDescBy {α : Type} (key : α → Int) : List α → List α
  | [] => []
  | x :: xs => insertDescBy key x (sortDescBy key xs)

/-- Insert into a list ascending by string key (for `ORDER BY s.name`). -/
def insertByName {α : Type} (key : α → String) (x : α) : List α → List α
  | [] => [x]
  | y :: ys => if key x < key y then x :: y :: ys else y :: insertByName key x ys

/-- Insertion sort ascending by string key. -/
def sortByName {α : Type} (key : α → String) : List α → List α
  | [] => []
  | x :: xs => insertByName key x (sortByName key xs)

/-! ## Read / analytics operations

Each read wraps its whole query in `try/except` and returns an empty
`DataFrame` (or, for the stats, a fixed fallback dict) when anything
raises; `connOk : Bool` is the fault oracle for the operation's engine
interaction. -/

/-- A row of `get_latest_status`'s result. -/
structure LatestStatusRow where
  name : String
  url : String
  platform : String
  is_online : Bool
  checked_at : Nat
  response_time_ms : Option Int
deriving DecidableEq, Repr

/-- `get_latest_status()` (lines 378–402): per store, the status checks
whose `checked_at` equals that store's maximum (`INNER JOIN` on the
per-store `MAX(checked_at)` subquery — a store with no checks yields no
row), ordered by store name; the empty set on any engine failure. -/
def get_latest_status (_m : Manager) (connOk : Bool) (db : DbState) :
    List LatestStatusRow :=
  if ¬ connOk then []
  else
    let latestOf : Nat → Option Nat := fun sid =>
      ((db.status_checks.filter (fun c => c.store_id == (sid : Int))).map
        (fun c => c.checked_at)).max?
    sortByName (fun r => r.name)
      (db.stores.flatMap (fun s =>
        (db.status_checks.filter (fun c =>
            c.store_id == (s.id : Int) && latestOf s.id == some c.checked_at)).map
          (fun c => ⟨s.name, s.url, s.platform, c.is_online, c.checked_at,
                     c.response_time_ms⟩)))

/-- A row of `get_hourly_data`'s result: the `hour` bucket label, the
rounded average online / offline percentages, and the contributing row
count. -/
structure HourlyRow where
  hour : Nat
  online_pct : Int
  offline_pct : Int
  data_points : Nat
deriving DecidableEq, Repr

/-- The `GROUP BY` key of `get_hourly_data`: the PostgreSQL query groups
by `EXTRACT(HOUR FROM report_time AT TIME ZONE 'Asia/Manila')` (the
local hour), the SQLite query by `strftime('%H', report_time)` (the raw
stored hour, no `+8 hours` modifier). -/
def hourlyKey (dbt : DbType) (t : Nat) : Nat :=
  match dbt with
  | .postgresql => localHour t
  | .sqlite => utcHour t

/-- `get_hourly_data()` (lines 404–435): restrict `summary_reports` to
the current Manila-local day (both dialects shift the day boundary by +8
hours), group by the dialect's hour key, and report the rounded average
online percentage, rounded average of `100 - online_percentage`, and row
count per bucket, ordered by hour; empty on any engine failure. -/
def get_hourly_data (m : Manager) (connOk : Bool) (now : Nat) (db : DbState) :
    List HourlyRow :=
  if ¬ connOk then []
  else
    let rows := db.summary_reports.filter
      (fun r => localDay r.report_time == localDay now)
    let keys := sortAsc ((rows.map (fun r => hourlyKey m.db_type r.report_time)).dedup)
    keys.map (fun h =>
      let grp := rows.filter (fun r => hourlyKey m.db_type r.report_time == h)
      ⟨h, roundSql (qavg (grp.map (fun r => r.online_percentage))),
       roundSql (qavg (grp.map (fun r => 100 - r.online_percentage))),
       grp.length⟩)

/-- A row of `get_store_logs`'s result. -/
structure StoreLogRow where
  name : String
  platform : String
  is_online : Bool
  checked_at : Nat
  response_time_ms : Option Int
deriving DecidableEq, Repr

/-- `get_store_logs(limit)` (lines 437–473): the current local day's
status checks joined with their store, newest first, capped at `limit`;
empty on any engine failure. -/
def get_store_logs (_m : Manager) (connOk : Bool) (now : Nat) (limit : Nat)
    (db : DbState) : List StoreLogRow :=
  if ¬ connOk then []
  else
    (sortDescBy (fun r : StoreLogRow => (r.checked_at : Int))
      (db.status_checks.filterMap (fun c =>
        if localDay c.checked_at == localDay now then
          (db.stores.find? (fun s => (s.id : Int) == c.store_id)).map
            (fun s => ⟨s.name, s.platform, c.is_online, c.checked_at,
                       c.response_time_ms⟩)
        else none))).take limit

/-- A row of `get_daily_uptime`'s result. -/
structure DailyUptimeRow where
  name : String
  platform : String
  total_checks : Nat
  online_checks : Nat
  uptime_percentage : Int
deriving DecidableEq, Repr

/-- `get_daily_uptime()` (lines 475–516): per store with at least one
check in the current local day, the day's check count, online count,
and rounded `online * 100.0 / total`, ordered descending by uptime
percentage; empty on any engine failure. -/
def get_daily_uptime (_m : Manager) (connOk : Bool) (now : Nat) (db : DbState) :
    List DailyUptimeRow :=
  if ¬ connOk then []
  else
    sortDescBy (fun r : DailyUptimeRow => r.uptime_percentage)
      (db.stores.filterMap (fun s =>
        let cs := db.status_checks.filter (fun c =>
          c.store_id == (s.id : Int) && localDay c.checked_at == localDay now)
        if cs.isEmpty then none
        else
          let onl := (cs.filter (fun c => c.is_online)).length
          some ⟨s.name, s.platform, cs.length, onl,
                roundSql ((onl : ℚ) * 100 / (cs.length : ℚ))⟩))

/-- The result dict of `get_database_stats`. -/
structure DbStats where
  store_count : Nat
  platforms : List (String × Nat)
  total_checks : Nat
  latest_summary : Option SummaryReport
  db_type : DbType
deriving DecidableEq, Repr

/-- `ORDER BY report_time DESC LIMIT 1`: a report with the maximal
`report_time` (the first such in insertion order). -/
def latestSummary (l : List SummaryReport) : Option SummaryReport :=
  l.foldl (fun acc r =>
    match acc with
    | none => some r
    | some b => if b.report_time < r.report_time then some r else some b) none

/-- `get_database_stats()` (lines 518–551): store count, store count per
platform, check count, most recent summary report; on any failure the
fixed fallback `{store_count 0, platforms {}, total_checks 0,
latest_summary None, db_type}`. -/
def get_database_stats (m : Manager) (connOk : Bool) (db : DbState) : DbStats :=
  if ¬ connOk then ⟨0, [], 0, none, m.db_type⟩
  else
    ⟨db.stores.length,
     ((db.stores.map (fun s => s.platform)).dedup).map (fun p =>
       (p, (db.stores.filter (fun s => s.platform == p)).length)),
     db.status_checks.length,
     latestSummary db.summary_reports,
     m.db_type⟩

/-- `close()` (lines 553–560): closes the pool if present; it assigns no
attribute, so the manager state is unchanged. -/
def closeManager (m : Manager) : Manager := m

/-! ## Sessions: sequences of public operations after `__init__`

Every public method of `DatabaseManager` other than
`_initialize_database` reads `self.db_type` and never assigns it; a call
is one step on the pair (manager attributes, database content). -/

/-- One invocation of a public operation, with its arguments and fault
oracle. -/
inductive OpCall where
  | getOrCreateStore (connOk : Nat → Bool) (now : Nat) (name url : String)
  | saveStatusCheck (connOk : Nat → Bool) (now : Nat) (store_id : Int)
      (is_online : Bool) (response_time_ms : Option Int)
      (error_message : Option String)
  | saveSummaryReport (connOk : Nat → Bool) (now : Nat)
      (total_stores online_stores offline_stores : Int)
  | getLatestStatus (connOk : Bool)
  | getHourlyData (connOk : Bool) (now : Nat)
  | getStoreLogs (connOk : Bool) (now : Nat) (limit : Nat)
  | getDailyUptime (connOk : Bool) (now : Nat)
  | getDatabaseStats (connOk : Bool)
  | close

/-- The effect of one operation call on the manager attributes and the
database content (results are discarded; reads leave the content
unchanged, a read's `pd.read_sql_query` never writes). -/
def opStep (c : OpCall) (s : Manager × DbState) : Manager × DbState :=
  match c with
  | .getOrCreateStore connOk now name url =>
    match get_or_create_store s.1 connOk s.2 now name url with
    | .ok (_, db') => (s.1, db')
    | .error _ => s
  | .saveStatusCheck connOk now sid onl rt em =>
    (s.1, (save_status_check s.1 connOk s.2 now sid onl rt em).2)
  | .saveSummaryReport connOk now t o f =>
    (s.1, (save_summary_report s.1 connOk s.2 now t o f).2)
  | .getLatestStatus _ => s
  | .getHourlyData _ _ => s
  | .getStoreLogs _ _ _ => s
  | .getDailyUptime _ _ => s
  | .getDatabaseStats _ => s
  | .close => (closeManager s.1, s.2)

/-- A whole session: the operations applied in order. -/
def runOps (cs : List OpCall) (s : Manager × DbState) : Manager × DbState :=
  cs.foldl (fun st c => opStep c st) s

/-! ## Lemmas about the retry loops -/

theorem sscLoop_all_fail (connOk : Nat → Bool) (db : DbState) (now : Nat)
    (sid : Int) (onl : Bool) (rt : Option Int) (em : Option String) :
    ∀ (fuel attempt : Nat), (∀ j, j < fuel → connOk (attempt + j) = false) →
      sscLoop connOk db now sid onl rt em attempt fuel = (false, db) := by
  intro fuel
  induction fuel with
  | zero => intro attempt _; rfl
  | succ n ih =>
    intro attempt h
    have h0 : connOk attempt = false := by simpa using h 0 (Nat.succ_pos n)
    by_cases hf : 0 < n
    · simp only [sscLoop, h0, Bool.false_eq_true, if_false, if_pos hf]
      exact ih (attempt + 1) (fun j hj => by
        simpa [Nat.add_assoc] using h (1 + j) (by omega))
    · simp only [sscLoop, h0, Bool.false_eq_true, if_false, if_neg hf]

theorem ssrLoop_all_fail (connOk : Nat → Bool) (db : DbState) (now : Nat)
    (t o f : Int) :
    ∀ (fuel attempt : Nat), (∀ j, j < fuel → connOk (attempt + j) = false) →
      ssrLoop connOk db now t o f attempt fuel = (false, db) := by
  intro fuel
  induction fuel with
  | zero => intro attempt _; rfl
  | succ n ih =>
    intro attempt h
    have h0 : connOk attempt = false := by simpa using h 0 (Nat.succ_pos n)
    by_cases hf : 0 < n
    · simp only [ssrLoop, h0, Bool.false_eq_true, if_false, if_pos hf]
      exact ih (attempt + 1) (fun j hj => by
        simpa [Nat.add_assoc] using h (1 + j) (by omega))
    · simp only [ssrLoop, h0, Bool.false_eq_true, if_false, if_neg hf]

theorem gocLoop_all_fail (connOk : Nat → Bool) (db : DbState) (now : Nat)
    (name url : String) :
    ∀ (fuel attempt : Nat), (∀ j, j < fuel → connOk (attempt + j) = false) →
      ∃ e, gocLoop connOk db now name url attempt fuel = .error e := by
  intro fuel
  induction fuel with
  | zero => intro attempt _; exact ⟨_, rfl⟩
  | succ n ih =>
    intro attempt h
    have h0 : connOk attempt = false := by simpa using h 0 (Nat.succ_pos n)
    by_cases hf : 0 < n
    · simp only [gocLoop, h0, Bool.false_eq_true, if_false, if_pos hf]
      exact ih (attempt + 1) (fun j hj => by
        simpa [Nat.add_assoc] using h (1 + j) (by omega))
    · simp only [gocLoop, h0, Bool.false_eq_true, if_false, if_neg hf]
      exact ⟨_, rfl⟩

theorem sscLoop_first_ok (connOk : Nat → Bool) (db : DbState) (now : Nat)
    (sid : Int) (onl : Bool) (rt : Option Int) (em : Option String)
    (fuel attempt : Nat) (h : connOk attempt = true) :
    sscLoop connOk db now sid onl rt em attempt (fuel + 1) =
      (true, { db with status_checks := db.status_checks ++
        [⟨sid, onl, rt, truncateErrorMessage em, now⟩] }) := by
  simp only [sscLoop, h, if_true]

theorem ssrLoop_first_ok (connOk : Nat → Bool) (db : DbState) (now : Nat)
    (t o f : Int) (fuel attempt : Nat) (h : connOk attempt = true) :
    ssrLoop connOk db now t o f attempt (fuel + 1) =
      (true, { db with summary_reports := db.summary_reports ++
        [⟨t, o, f, onlinePercentage t o, now⟩] }) := by
  simp only [ssrLoop, h, if_true]

theorem gocLoop_first_ok_fresh (connOk : Nat → Bool) (db : DbState) (now : Nat)
    (name url : String) (fuel attempt : Nat) (h : connOk attempt = true)
    (hfresh : ∀ s ∈ db.stores, s.url ≠ url) :
    gocLoop connOk db now name url attempt (fuel + 1) =
      .ok (db.nextStoreId,
        { db with stores := db.stores ++ [⟨db.nextStoreId, name, url, platformOf url, now⟩],
                  nextStoreId := db.nextStoreId + 1 }) := by
  have hfind : db.stores.find? (fun s => s.url == url) = none := by
    rw [List.find?_eq_none]
    intro s hs
    simpa using hfresh s hs
  simp only [gocLoop, h, if_true, hfind]

theorem gocLoop_first_ok_found (connOk : Nat → Bool) (db : DbState) (now : Nat)
    (name url : String) (fuel attempt : Nat) (h : connOk attempt = true)
    (s : Store) (hfind : db.stores.find? (fun s => s.url == url) = some s) :
    gocLoop connOk db now name url attempt (fuel + 1) = .ok (s.id, db) := by
  simp only [gocLoop, h, if_true, hfind]

/-! ## Claim theorems -/

/-- C2: every read operation swallows any engine failure raised while it
runs: `get_latest_status`, `get_hourly_data`, `get_store_logs` and
`get_daily_uptime` return the empty result set, and `get_database_stats`
returns the all-zero/empty fallback object (store count 0, no platforms,
0 checks, no latest summary) instead of a partial result or an error. -/
theorem c2_reads_swallow_failures (m : Manager) (db : DbState) (now limit : Nat) :
    get_latest_status m false db = [] ∧
    get_hourly_data m false now db = [] ∧
    get_store_logs m false now limit db = [] ∧
    get_daily_uptime m false now db = [] ∧
    get_database_stats m false db =
      ⟨0, [], 0, none, m.db_type⟩ := by
  refine ⟨?_, ?_, ?_, ?_, ?_⟩ <;>
    simp [get_latest_status, get_hourly_data, get_store_logs,
      get_daily_uptime, get_database_stats]

/-- C5: `save_summary_report` stores `online/total × 100` as the online
percentage when `total > 0` and `0` when `total = 0` (never dividing by
zero); in particular `(10, 7, 3)` stores `70` and `(0, 0, 0)` stores
`0`. -/
theorem c5_online_percentage (m : Manager) (hm : 0 < m.max_retries)
    (connOk : Nat → Bool) (h0 : connOk 0 = true) (db : DbState) (now : Nat)
    (t o f : Int) :
    (save_summary_report m connOk db now t o f).2.summary_reports =
      db.summary_reports ++ [⟨t, o, f, onlinePercentage t o, now⟩] ∧
    (0 < t → onlinePercentage t o = (o : ℚ) / (t : ℚ) * 100) ∧
    (t = 0 → onlinePercentage t o = 0) ∧
    onlinePercentage 10 7 = 70 ∧
    onlinePercentage 0 0 = 0 := by
  obtain ⟨k, hk⟩ : ∃ k, m.max_retries = k + 1 :=
    ⟨m.max_retries - 1, by omega⟩
  refine ⟨?_, ?_, ?_, ?_, ?_⟩
  · rw [save_summary_report, hk, ssrLoop_first_ok connOk db now t o f k 0 h0]
  · intro ht; rw [onlinePercentage, if_pos ht]
  · intro ht; rw [onlinePercentage, if_neg (by omega)]
  · norm_num [onlinePercentage]
  · norm_num [onlinePercentage]

/-- C5 witness: at `(10, 7, 3)` on a fresh store the saved report holds
percentage `70`, and at `(0, 0, 0)` percentage `0`. -/
theorem c5_online_percentage_witness :
    (save_summary_report ⟨DbType.sqlite, 3, 5, false⟩ (fun _ => true)
        ⟨[], [], [], 1⟩ 0 10 7 3).2.summary_reports =
      [⟨10, 7, 3, onlinePercentage 10 7, 0⟩] ∧
    onlinePercentage 10 7 = 70 ∧
    onlinePercentage 0 0 = 0 := by
  have h := c5_online_percentage ⟨DbType.sqlite, 3, 5, false⟩ (by decide)
    (fun _ => true) rfl ⟨[], [], [], 1⟩ 0 10 7 3
  exact ⟨by simpa using h.1, h.2.2.2.1, h.2.2.2.2⟩

/-- C6: `save_status_check` stores error messages longer than 500
characters as their first 500 characters plus an ellipsis marker, and
messages of 500 characters or fewer unmodified. -/
theorem c6_error_message_truncation (m : Manager) (hm : 0 < m.max_retries)
    (connOk : Nat → Bool) (h0 : connOk 0 = true) (db : DbState) (now : Nat)
    (sid : Int) (onl : Bool) (rt : Option Int) (em : String) :
    (save_status_check m connOk db now sid onl rt (some em)).2.status_checks =
      db.status_checks ++ [⟨sid, onl, rt, truncateErrorMessage (some em), now⟩] ∧
    (500 < em.length →
      truncateErrorMessage (some em) = some (pySlice em 500 ++ "...")) ∧
    (em.length ≤ 500 → truncateErrorMessage (some em) = some em) := by
  obtain ⟨k, hk⟩ : ∃ k, m.max_retries = k + 1 :=
    ⟨m.max_retries - 1, by omega⟩
  refine ⟨?_, ?_, ?_⟩
  · rw [save_status_check, hk,
      sscLoop_first_ok connOk db now sid onl rt (some em) k 0 h0]
  · intro h
    rw [truncateErrorMessage, if_pos ⟨by omega, h⟩]
  · intro h
    rw [truncateErrorMessage, if_neg (by omega)]

set_option maxRecDepth 8000

/-- C6 witness: a 501-character message is stored as its first 500
characters plus `"..."`; a 4-character message is stored unmodified. -/
theorem c6_error_message_truncation_witness :
    (save_status_check ⟨DbType.sqlite, 3, 5, false⟩ (fun _ => true)
        ⟨[], [], [], 1⟩ 0 1 true none
        (some (String.mk (List.replicate 501 'x')))).2.status_checks =
      [⟨1, true, none,
        truncateErrorMessage (some (String.mk (List.replicate 501 'x'))), 0⟩] ∧
    truncateErrorMessage (some (String.mk (List.replicate 501 'x'))) =
      some (pySlice (String.mk (List.replicate 501 'x')) 500 ++ "...") ∧
    truncateErrorMessage (some "boom") = some "boom" := by
  have h1 := c6_error_message_truncation ⟨DbType.sqlite, 3, 5, false⟩
    (by decide) (fun _ => true) rfl ⟨[], [], [], 1⟩ 0 1 true none
    (String.mk (List.replicate 501 'x'))
  have h2 := c6_error_message_truncation ⟨DbType.sqlite, 3, 5, false⟩
    (by decide) (fun _ => true) rfl ⟨[], [], [], 1⟩ 0 1 true none "boom"
  exact ⟨by simpa using h1.1, h1.2.1 (by decide), h2.2.2 (by decide)⟩

/-- C3: on exhaustion of all retry attempts `save_status_check` and
`save_summary_report` return `false` rather than raising (they are total
`Bool`-returning operations), while `get_or_create_store` raises
(returns `Except.error`); when the first attempt's engine interaction
succeeds, the saves return `true` and `get_or_create_store` returns an
id. -/
theorem c3_write_failure_contracts (m : Manager) (connOk : Nat → Bool)
    (db : DbState) (now : Nat) (sid : Int) (onl : Bool) (rt : Option Int)
    (em : Option String) (t o f : Int) (name url : String) :
    ((∀ k, k < m.max_retries → connOk k = false) →
      (save_status_check m connOk db now sid onl rt em).1 = false ∧
      (save_summary_report m connOk db now t o f).1 = false ∧
      ∃ e, get_or_create_store m connOk db now name url = .error e) ∧
    (0 < m.max_retries → connOk 0 = true →
      (save_status_check m connOk db now sid onl rt em).1 = true ∧
      (save_summary_report m connOk db now t o f).1 = true ∧
      ∃ v, get_or_create_store m connOk db now name url = .ok v) := by
  constructor
  · intro hfail
    have hf : ∀ j, j < m.max_retries → connOk (0 + j) = false := by
      intro j hj; simpa using hfail j hj
    refine ⟨?_, ?_, ?_⟩
    · rw [save_status_check, sscLoop_all_fail connOk db now sid onl rt em _ 0 hf]
    · rw [save_summary_report, ssrLoop_all_fail connOk db now t o f _ 0 hf]
    · exact gocLoop_all_fail connOk db now name url _ 0 hf
  · intro hm h0
    obtain ⟨k, hk⟩ : ∃ k, m.max_retries = k + 1 :=
      ⟨m.max_retries - 1, by omega⟩
    refine ⟨?_, ?_, ?_⟩
    · rw [save_status_check, hk,
        sscLoop_first_ok connOk db now sid onl rt em k 0 h0]
    · rw [save_summary_report, hk, ssrLoop_first_ok connOk db now t o f k 0 h0]
    · rw [get_or_create_store, hk]
      cases hfind : db.stores.find? (fun s => s.url == url) with
      | some s => exact ⟨_, gocLoop_first_ok_found connOk db now name url k 0 h0 s hfind⟩
      | none =>
        refine ⟨_, gocLoop_first_ok_fresh connOk db now name url k 0 h0 ?_⟩
        intro s hs
        have := List.find?_eq_none.mp hfind s hs
        simpa using this

/-- C3 witness: with every attempt failing, both saves report `false`
and `get_or_create_store` errors; with the engine up, both saves report
`true`. -/
theorem c3_write_failure_contracts_witness :
    (save_status_check ⟨DbType.sqlite, 3, 5, false⟩ (fun _ => false)
      ⟨[], [], [], 1⟩ 0 1 true none none).1 = false ∧
    (save_summary_report ⟨DbType.sqlite, 3, 5, false⟩ (fun _ => false)
      ⟨[], [], [], 1⟩ 0 2 1 1).1 = false ∧
    (∃ e, get_or_create_store ⟨DbType.sqlite, 3, 5, false⟩ (fun _ => false)
      ⟨[], [], [], 1⟩ 0 "Store" "https://a" = .error e) ∧
    (save_status_check ⟨DbType.sqlite, 3, 5, false⟩ (fun _ => true)
      ⟨[], [], [], 1⟩ 0 1 true none none).1 = true := by
  have hfail := (c3_write_failure_contracts ⟨DbType.sqlite, 3, 5, false⟩
    (fun _ => false) ⟨[], [], [], 1⟩ 0 1 true none none 2 1 1 "Store"
    "https://a").1 (fun k _ => rfl)
  have hok := (c3_write_failure_contracts ⟨DbType.sqlite, 3, 5, false⟩
    (fun _ => true) ⟨[], [], [], 1⟩ 0 1 true none none 2 1 1 "Store"
    "https://a").2 (by decide) rfl
  exact ⟨hfail.1, hfail.2.1, hfail.2.2, hok.1⟩

theorem occursIn_iff (needle : List Char) :
    ∀ haystack, occursIn needle haystack = true ↔ needle <:+: haystack := by
  intro haystack
  induction haystack with
  | nil => simp [occursIn, List.isEmpty_iff]
  | cons c rest ih =>
    simp [occursIn, List.infix_cons_iff, List.isPrefixOf_iff_prefix, ih,
      Bool.or_eq_true]

/-- C4: with the engine up and no store yet holding the url,
`get_or_create_store` inserts exactly one row and returns its id; a
second call with the same url finds that row by exact url match,
performs no insert (the state is returned unchanged), and returns the
same id; exactly one store row holds the url afterwards. -/
theorem c4_get_or_create_store_idempotent (m : Manager)
    (hm : 0 < m.max_retries) (db : DbState) (now now2 : Nat)
    (name name2 url : String) (hfresh : ∀ s ∈ db.stores, s.url ≠ url) :
    get_or_create_store m (fun _ => true) db now name url =
      .ok (db.nextStoreId,
        { db with
            stores := db.stores ++ [⟨db.nextStoreId, name, url, platformOf url, now⟩],
            nextStoreId := db.nextStoreId + 1 }) ∧
    get_or_create_store m (fun _ => true)
        { db with
            stores := db.stores ++ [⟨db.nextStoreId, name, url, platformOf url, now⟩],
            nextStoreId := db.nextStoreId + 1 } now2 name2 url =
      .ok (db.nextStoreId,
        { db with
            stores := db.stores ++ [⟨db.nextStoreId, name, url, platformOf url, now⟩],
            nextStoreId := db.nextStoreId + 1 }) ∧
    ((db.stores ++ [(⟨db.nextStoreId, name, url, platformOf url, now⟩ : Store)]).filter
        (fun s : Store => s.url == url)).length = 1 := by
  obtain ⟨k, hk⟩ : ∃ k, m.max_retries = k + 1 :=
    ⟨m.max_retries - 1, by omega⟩
  have hnone : db.stores.find? (fun s => s.url == url) = none :=
    List.find?_eq_none.mpr (fun s hs => by simpa using hfresh s hs)
  refine ⟨?_, ?_, ?_⟩
  · rw [get_or_create_store, hk]
    exact gocLoop_first_ok_fresh _ db now name url k 0 rfl hfresh
  · rw [get_or_create_store, hk]
    apply gocLoop_first_ok_found _ _ now2 name2 url k 0 rfl
      ⟨db.nextStoreId, name, url, platformOf url, now⟩
    show (db.stores ++ [_]).find? _ = _
    rw [List.find?_append, hnone]
    simp [List.find?]
  · rw [List.filter_append,
      List.filter_eq_nil_iff.mpr (fun s hs => by simpa using hfresh s hs)]
    simp

/-- C4 witness: creating then re-requesting the same url yields the
same id `1` and leaves the single inserted row in place. -/
theorem c4_get_or_create_store_idempotent_witness :
    get_or_create_store ⟨DbType.sqlite, 3, 5, false⟩ (fun _ => true)
        ⟨[], [], [], 1⟩ 100 "CocoPan Ermita" "https://www.foodpanda.ph/x" =
      .ok (1, ⟨[⟨1, "CocoPan Ermita", "https://www.foodpanda.ph/x",
                 platformOf "https://www.foodpanda.ph/x", 100⟩], [], [], 2⟩) ∧
    get_or_create_store ⟨DbType.sqlite, 3, 5, false⟩ (fun _ => true)
        ⟨[⟨1, "CocoPan Ermita", "https://www.foodpanda.ph/x",
           platformOf "https://www.foodpanda.ph/x", 100⟩], [], [], 2⟩
        200 "CocoPan Ermita (2)" "https://www.foodpanda.ph/x" =
      .ok (1, ⟨[⟨1, "CocoPan Ermita", "https://www.foodpanda.ph/x",
                 platformOf "https://www.foodpanda.ph/x", 100⟩], [], [], 2⟩) := by
  have h := c4_get_or_create_store_idempotent ⟨DbType.sqlite, 3, 5, false⟩
    (by decide) ⟨[], [], [], 1⟩ 100 200 "CocoPan Ermita" "CocoPan Ermita (2)"
    "https://www.foodpanda.ph/x" (by simp)
  exact ⟨h.1, h.2.1⟩

/-- C7: the store row created by `get_or_create_store` carries platform
`"foodpanda"` exactly when the url contains the substring
`"foodpanda.ph"`, and `"grabfood"` in every other case. -/
theorem c7_platform_classification (m : Manager) (hm : 0 < m.max_retries)
    (db : DbState) (now : Nat) (name url : String)
    (hfresh : ∀ s ∈ db.stores, s.url ≠ url) :
    get_or_create_store m (fun _ => true) db now name url =
      .ok (db.nextStoreId,
        { db with
            stores := db.stores ++ [⟨db.nextStoreId, name, url, platformOf url, now⟩],
            nextStoreId := db.nextStoreId + 1 }) ∧
    (platformOf url = "foodpanda" ↔ "foodpanda.ph".data <:+: url.data) ∧
    (¬ "foodpanda.ph".data <:+: url.data → platformOf url = "grabfood") := by
  obtain ⟨k, hk⟩ : ∃ k, m.max_retries = k + 1 :=
    ⟨m.max_retries - 1, by omega⟩
  refine ⟨?_, ?_, ?_⟩
  · rw [get_or_create_store, hk]
    exact gocLoop_first_ok_fresh _ db now name url k 0 rfl hfresh
  · by_cases h : occursIn "foodpanda.ph".data url.data
    · simp [platformOf, h, (occursIn_iff _ _).mp h]
    · rw [← occursIn_iff]
      simp only [platformOf, h, Bool.false_eq_true, if_false]
      constructor
      · intro hgf; exact absurd hgf (by decide)
      · intro hocc; exact absurd hocc (by simp [h])
  · intro h
    have : occursIn "foodpanda.ph".data url.data = false := by
      rcases Bool.eq_false_or_eq_true (occursIn "foodpanda.ph".data url.data) with hb | hb
      · exact absurd ((occursIn_iff _ _).mp hb) h
      · exact hb
    simp [platformOf, this]

/-- C7 witness: a foodpanda.ph url is classified `"foodpanda"` and a
grab.com url `"grabfood"` by the created rows. -/
theorem c7_platform_classification_witness :
    platformOf "https://www.foodpanda.ph/restaurant/s1" = "foodpanda" ∧
    platformOf "https://food.grab.com/ph/en/restaurant/s2" = "grabfood" ∧
    get_or_create_store ⟨DbType.sqlite, 3, 5, false⟩ (fun _ => true)
        ⟨[], [], [], 1⟩ 0 "A" "https://www.foodpanda.ph/restaurant/s1" =
      .ok (1, ⟨[⟨1, "A", "https://www.foodpanda.ph/restaurant/s1",
                 platformOf "https://www.foodpanda.ph/restaurant/s1", 0⟩],
               [], [], 2⟩) := by
  have h1 := c7_platform_classification ⟨DbType.sqlite, 3, 5, false⟩
    (by decide) ⟨[], [], [], 1⟩ 0 "A" "https://www.foodpanda.ph/restaurant/s1"
    (by simp)
  have h2 := c7_platform_classification ⟨DbType.sqlite, 3, 5, false⟩
    (by decide) ⟨[], [], [], 1⟩ 0 "B" "https://food.grab.com/ph/en/restaurant/s2"
    (by simp)
  refine ⟨h1.2.1.mpr ((occursIn_iff _ _).mp (by decide)), ?_, h1.1⟩
  exact h2.2.2 (fun hin => by
    have := (occursIn_iff "foodpanda.ph".data
      "https://food.grab.com/ph/en/restaurant/s2".data).mpr hin
    exact absurd this (by decide))

/-- C1: when every attempt to initialize the PostgreSQL engine fails and
the SQLite storage path is writable, `_initialize_database` returns
normally (no error) with the active engine permanently switched to
`sqlite`, the schema created on it, and subsequent writes through the
resulting manager succeed. -/
theorem c1_primary_failure_falls_back_to_sqlite (env : InitEnv)
    (hpg : ∀ k, ∃ e, init_postgresql env k = .error e)
    (hsq : env.sqliteOk = true) :
    initialize_database env DbType.postgresql =
      .ok ⟨DbType.sqlite, false, true, 3⟩ ∧
    ∀ (db : DbState) (now : Nat) (sid : Int) (onl : Bool) (rt : Option Int)
      (em : Option String),
      (save_status_check ⟨DbType.sqlite, 3, 5, false⟩ (fun _ => true)
        db now sid onl rt em).1 = true := by
  obtain ⟨e0, h0⟩ := hpg 0
  obtain ⟨e1, h1⟩ := hpg 1
  obtain ⟨e2, h2⟩ := hpg 2
  constructor
  · simp [initialize_database, initLoop, h0, h1, h2, hsq]
  · intro db now sid onl rt em
    simp [save_status_check, sscLoop]

/-- C1 witness: with a reachable-scheme url whose connections always
fail and a writable SQLite path, initialization succeeds on the
embedded engine and a status check then saves successfully. -/
theorem c1_primary_failure_falls_back_to_sqlite_witness :
    initialize_database
        ⟨"postgresql://cocopan", false, fun _ => false, fun _ => true,
         fun _ => true, true⟩ DbType.postgresql =
      .ok ⟨DbType.sqlite, false, true, 3⟩ ∧
    (save_status_check ⟨DbType.sqlite, 3, 5, false⟩ (fun _ => true)
      ⟨[], [], [], 1⟩ 0 1 true (some 120) none).1 = true := by
  have h := c1_primary_failure_falls_back_to_sqlite
    ⟨"postgresql://cocopan", false, fun _ => false, fun _ => true,
     fun _ => true, true⟩ (fun k => ⟨PgInitError.operational, rfl⟩) rfl
  exact ⟨h.1, h.2 ⟨[], [], [], 1⟩ 0 1 true (some 120) none⟩

/-- C8 counterexample: with a connection string lacking the
`postgresql://` scheme (and a writable embedded path), initialization
is neither fatal nor un-retried: all three attempts run (the result
records `attempts = 3`) and `_initialize_database` returns normally,
fallen back to SQLite. -/
theorem c8_invalid_url_not_fatal_counterexample :
    initialize_database
        ⟨"sqlite:///cocopan.db", false, fun _ => true, fun _ => true,
         fun _ => true, true⟩ DbType.postgresql =
      .ok ⟨DbType.sqlite, false, true, 3⟩ := rfl

/-- C8 amended: a connection string missing the scheme prefix is
detected before any connection attempt and raised as a distinct
malformed-input error (`ValueError`, not an operational error), but the
initializer's generic handler catches it like any other failure: the
attempt is retried up to `max_retries` times and initialization then
falls back to the embedded engine rather than being fatal. -/
theorem c8_invalid_url_retried_then_fallback (env : InitEnv)
    (hurl : pyStartsWith env.database_url "postgresql://" = false)
    (hsq : env.sqliteOk = true) :
    (∀ k, init_postgresql env k = .error .invalidUrl) ∧
    PgInitError.invalidUrl ≠ PgInitError.operational ∧
    initialize_database env DbType.postgresql =
      .ok ⟨DbType.sqlite, false, true, 3⟩ := by
  have hstep : ∀ k, init_postgresql env k = .error .invalidUrl := by
    intro k
    simp [init_postgresql, hurl]
  refine ⟨hstep, by decide, ?_⟩
  simp [initialize_database, initLoop, hstep 0, hstep 1, hstep 2, hsq]

/-- C8 witness: the amended behavior at a concrete malformed url. -/
theorem c8_invalid_url_retried_then_fallback_witness :
    init_postgresql
        ⟨"sqlite:///db.sqlite", false, fun _ => true, fun _ => true,
         fun _ => true, true⟩ 0 = .error .invalidUrl ∧
    initialize_database
        ⟨"sqlite:///db.sqlite", false, fun _ => true, fun _ => true,
         fun _ => true, true⟩ DbType.postgresql =
      .ok ⟨DbType.sqlite, false, true, 3⟩ := by
  have h := c8_invalid_url_retried_then_fallback
    ⟨"sqlite:///db.sqlite", false, fun _ => true, fun _ => true,
     fun _ => true, true⟩ rfl rfl
  exact ⟨h.1 0, h.2.2⟩

/-- C9 counterexample: the SQLite branch of `get_hourly_data` groups by
`strftime('%H', report_time)` with no `+8 hours` shift, so a report
stored at timestamp 7200 (02:00 UTC, 10:00 Manila time) lands in a
bucket labelled with hour `2`, not its Manila-local hour `10` — the
embedded engine does not group that day's rows by local hour-of-day. -/
theorem c9_sqlite_hour_label_counterexample :
    get_hourly_data ⟨DbType.sqlite, 3, 5, false⟩ true 0
        ⟨[], [], [⟨100, 50, 50, 50, 7200⟩], 1⟩ =
      [⟨2, 50, 50, 1⟩] ∧
    localHour 7200 = 10 ∧ (2 : Nat) ≠ 10 := by
  refine ⟨?_, by decide, by decide⟩
  simp +decide [get_hourly_data, hourlyKey, localDay, localHour, utcHour,
    manilaOffset, qavg, qsum, List.dedup, sortAsc, insertAsc]
  norm_num [roundSql]

/-- C9 amended: `get_hourly_data` restricts to the current Manila-local
day by the fixed +8-hour shift on both engines, and two SummaryReport
rows of that day lying in the same clock hour share one bucket with
`data_points = 2`, whose values are the rounded average online
percentage and rounded average of `100 - online_percentage`; the bucket
label, however, is the Manila-local hour on the PostgreSQL engine but
the raw stored (UTC) hour on the SQLite engine. -/
theorem c9_hourly_bucketing_amended (m : Manager) (now : Nat)
    (stores : List Store) (checks : List StatusCheck) (nid : Nat)
    (r1 r2 : SummaryReport)
    (h1 : localDay r1.report_time = localDay now)
    (h2 : localDay r2.report_time = localDay now)
    (habs : r1.report_time / 3600 = r2.report_time / 3600) :
    get_hourly_data m true now ⟨stores, checks, [r1, r2], nid⟩ =
      [⟨hourlyKey m.db_type r1.report_time,
        roundSql ((r1.online_percentage + r2.online_percentage) / 2),
        roundSql (((100 - r1.online_percentage) + (100 - r2.online_percentage)) / 2),
        2⟩] ∧
    hourlyKey DbType.postgresql r1.report_time = localHour r1.report_time ∧
    hourlyKey DbType.sqlite r1.report_time = utcHour r1.report_time := by
  have hk : hourlyKey m.db_type r2.report_time =
      hourlyKey m.db_type r1.report_time := by
    cases hdt : m.db_type with
    | postgresql =>
      simp only [hourlyKey, localHour, manilaOffset]
      rw [show (28800 : Nat) = 8 * 3600 from rfl,
        Nat.add_mul_div_right _ _ (by norm_num),
        Nat.add_mul_div_right _ _ (by norm_num), habs]
    | sqlite =>
      simp only [hourlyKey, utcHour]
      rw [habs]
  refine ⟨?_, rfl, rfl⟩
  simp only [get_hourly_data, List.filter_cons, List.filter_nil, h1, h2,
    beq_self_eq_true, if_true, List.map_cons, List.map_nil, hk]
  rw [List.dedup_cons_of_mem (by simp)]
  rw [List.dedup_cons_of_not_mem (by simp), List.dedup_nil]
  simp [sortAsc, insertAsc, qavg, qsum]

/-- C9 witness for the amended claim: two reports at 10:00 and 10:10
Manila time with percentages 40 and 60 share one bucket with label 10
(local hour) on PostgreSQL, averages 50/50 and `data_points = 2`. -/
theorem c9_hourly_bucketing_amended_witness :
    get_hourly_data ⟨DbType.postgresql, 3, 5, true⟩ true 0
        ⟨[], [], [⟨100, 40, 60, 40, 7200⟩, ⟨100, 60, 40, 60, 7800⟩], 1⟩ =
      [⟨hourlyKey DbType.postgresql 7200, roundSql (((40 : ℚ) + 60) / 2),
        roundSql (((100 - (40 : ℚ)) + (100 - 60)) / 2), 2⟩] ∧
    hourlyKey DbType.postgresql 7200 = localHour 7200 ∧
    hourlyKey DbType.sqlite 7200 = utcHour 7200 :=
  c9_hourly_bucketing_amended ⟨DbType.postgresql, 3, 5, true⟩ 0 [] [] 1
    ⟨100, 40, 60, 40, 7200⟩ ⟨100, 60, 40, 60, 7800⟩
    (by decide) (by decide) (by decide)

theorem opStep_fst (c : OpCall) (s : Manager × DbState) :
    (opStep c s).1 = s.1 := by
  cases c with
  | getOrCreateStore connOk now name url =>
    simp only [opStep]
    split
    · rfl
    · rfl
  | saveStatusCheck connOk now sid onl rt em => rfl
  | saveSummaryReport connOk now t o f => rfl
  | getLatestStatus connOk => rfl
  | getHourlyData connOk now => rfl
  | getStoreLogs connOk now limit => rfl
  | getDailyUptime connOk now => rfl
  | getDatabaseStats connOk => rfl
  | close => rfl

theorem runOps_fst :
    ∀ (cs : List OpCall) (s : Manager × DbState), (runOps cs s).1 = s.1 := by
  intro cs
  induction cs with
  | nil => intro s; rfl
  | cons c rest ih =>
    intro s
    show (runOps rest (opStep c s)).1 = s.1
    rw [ih (opStep c s), opStep_fst c s]

/-- C10: a manager produced by `__init__` carries one of the two engine
tags, and no sequence of subsequently invoked operations (writes, reads,
`close`) ever changes the manager's attributes — in particular
`db_type` is immutable after initialization. -/
theorem c10_db_type_immutable_after_init (env : InitEnv) (m : Manager)
    (_hm : mkManager env = .ok m) :
    (m.db_type = DbType.postgresql ∨ m.db_type = DbType.sqlite) ∧
    ∀ (cs : List OpCall) (db : DbState), (runOps cs (m, db)).1 = m := by
  refine ⟨?_, fun cs db => runOps_fst cs (m, db)⟩
  cases hdt : m.db_type with
  | postgresql => exact Or.inl rfl
  | sqlite => exact Or.inr rfl

/-- C10 witness: an initialized embedded-engine manager is unchanged by
a session of operations. -/
theorem c10_db_type_immutable_after_init_witness :
    ((⟨DbType.sqlite, 3, 5, false⟩ : Manager).db_type = DbType.postgresql ∨
      (⟨DbType.sqlite, 3, 5, false⟩ : Manager).db_type = DbType.sqlite) ∧
    (runOps [OpCall.getOrCreateStore (fun _ => true) 0 "A" "https://u",
             OpCall.saveStatusCheck (fun _ => true) 5 1 true none none,
             OpCall.getDatabaseStats true, OpCall.close]
      (⟨DbType.sqlite, 3, 5, false⟩, ⟨[], [], [], 1⟩)).1 =
      ⟨DbType.sqlite, 3, 5, false⟩ := by
  have h := c10_db_type_immutable_after_init
    ⟨"postgresql://cocopan", true, fun _ => true, fun _ => true,
     fun _ => true, true⟩ ⟨DbType.sqlite, 3, 5, false⟩ rfl
  exact ⟨h.1,
    h.2 [OpCall.getOrCreateStore (fun _ => true) 0 "A" "https://u",
         OpCall.saveStatusCheck (fun _ => true) 5 1 true none none,
         OpCall.getDatabaseStats true, OpCall.close] ⟨[], [], [], 1⟩⟩
